import Mathlib

/-!
Shallow embedding of the decision core of the `weather-forecast-kalshi`
repository, together with theorems checking the natural-language
specification against the code.

Embedding conventions:
* Python floats are modelled as exact rationals (`ℚ`); the one place the
  code takes a square root (`variance ** 0.5` in
  `live_trader_enhanced.py`) is modelled with `Real.sqrt` over `ℝ`.
* `Optional[float]` becomes `Option ℚ`; Python truthiness of an optional
  float (`if temp:`) is `some t` with `t ≠ 0`.
* Python dictionaries keyed by source name become association lists
  `List (String × ℚ)` looked up by first key occurrence.
* Network fetches are external inputs: each poll tick or fetch result is
  passed in as data.
-/

/-! ## Generic helpers -/

/-- Python slice `l[-n:]`: the last `n` elements (all of `l` when `n ≥ |l|`). -/
def lastN (n : Nat) (l : List α) : List α := l.drop (l.length - n)

/-- `timestamp`, `source`, `temperature`, `is_forecast` of
`smart_observed_strategy.TemperatureObservation`. -/
structure TemperatureObservation where
  timestamp : String
  source : String
  temperature : ℚ
  isForecast : Bool
deriving DecidableEq

/-- Python `max(a :: l, key=lambda o: o.temperature)`: fold keeping the current
best, replacing only on a strictly larger key, hence ties keep the earliest
element. -/
def pymaxTemp (a : TemperatureObservation) (l : List TemperatureObservation) :
    TemperatureObservation :=
  l.foldl (fun best o => if o.temperature > best.temperature then o else best) a

/-! ## PeakDetector: `ContinuousMonitor.detect_max_temperature`
(`smart_observed_strategy.py` lines 209-246) -/

/-- Lines 221-225: filter to NWS observations; if fewer than 3 NWS
observations, use all observations. -/
def detectPool (recent : List TemperatureObservation) : List TemperatureObservation :=
  let nws_obs := recent.filter (fun o => o.source == "NWS")
  if nws_obs.length < 3 then recent else nws_obs

/-- Lines 228-232: `recent_temps = [o.temperature for o in nws_obs[-3:]]` and
`is_declining = recent_temps[-1] < recent_temps[-2] and
recent_temps[-2] <= recent_temps[-3]`. In chronological order `[a, b, c]`
(`c` newest) this is `c < b` and `b ≤ a`. -/
def decliningLast3 (temps : List ℚ) : Bool :=
  match lastN 3 temps with
  | [a, b, c] => decide (c < b) && decide (b ≤ a)
  | _ => false

/-- `ContinuousMonitor.detect_max_temperature` (lines 209-246). Returns the
Python triple `(detected_max, detected_time, confidence)`; `(None, None, 0.5)`
means no detection. -/
def detect_max_temperature (recent : List TemperatureObservation) :
    Option ℚ × Option String × ℚ :=
  if recent.length < 3 then (none, none, mkRat 1 2)
  else if decliningLast3 ((detectPool recent).map (·.temperature)) then
    match detectPool recent with
    | [] => (none, none, mkRat 1 2)   -- unreachable: the pool has ≥ 3 elements here
    | a :: t =>
      (some (pymaxTemp a t).temperature, some (pymaxTemp a t).timestamp, mkRat 9 10)
  else (none, none, mkRat 1 2)

/-- An NWS (primary-source) observation, as built at
`smart_observed_strategy.py` lines 182-187. -/
def obsNWS (ts : String) (t : ℚ) : TemperatureObservation := ⟨ts, "NWS", t, false⟩

/-- An OpenMeteo (secondary-source) observation, as built at
`smart_observed_strategy.py` lines 194-199. -/
def obsOM (ts : String) (t : ℚ) : TemperatureObservation := ⟨ts, "OpenMeteo", t, false⟩

/-- Strictly rising all-NWS fixture `[55, 56, 57, 58]`. -/
def exRise : List TemperatureObservation :=
  [obsNWS "t0" 55, obsNWS "t1" 56, obsNWS "t2" 57, obsNWS "t3" 58]

/-- All-NWS fixture `[57, 58, 58, 57]`: flat then strictly decreasing. -/
def exPeak : List TemperatureObservation :=
  [obsNWS "t0" 57, obsNWS "t1" 58, obsNWS "t2" 58, obsNWS "t3" 57]

/-- Fixture with no NWS samples at all, declining at the end. -/
def exSecondaryOnly : List TemperatureObservation :=
  [obsOM "t0" 58, obsOM "t1" 58, obsOM "t2" 57]

/-- Fixture with one NWS sample among OpenMeteo samples; the overall
maximum (60) is an OpenMeteo reading. -/
def exMixed : List TemperatureObservation :=
  [obsOM "t0" 60, obsNWS "t1" 55, obsOM "t2" 54, obsOM "t3" 53]

/-- Executable check that a temperature list is chronologically
non-decreasing. -/
def nonDecreasing : List ℚ → Bool
  | [] => true
  | [_] => true
  | a :: b :: t => decide (a ≤ b) && nonDecreasing (b :: t)

/-! ## ContinuousMonitor: `monitor_buffer_period`
(`smart_observed_strategy.py` lines 248-368)

Real time is externalized: one `Tick` holds the two fetch results of one
iteration of the poll loop (`collect_observation`, lines 175-207), and the
list of ticks passed to the loop represents however many iterations ran
before the loop stopped — by detection, by `buffer_end`, by the 12-check
safety cap, or by the caller terminating the session at an iteration
boundary. -/

/-- Fetch results of one poll tick: `get_nws_current_observation()` and
`get_openmeteo_current()`, each `None` on failure. -/
structure Tick where
  timestamp : String
  nws : Option ℚ
  openmeteo : Option ℚ
deriving DecidableEq

/-- One `if temp:`-guarded append (lines 181-188 and 193-200): the
observation is recorded only when the fetch result is truthy, i.e. present
and non-zero. -/
def appendIfTruthy (obs : List TemperatureObservation) (ts src : String) :
    Option ℚ → List TemperatureObservation
  | some t => if t ≠ 0 then obs ++ [⟨ts, src, t, false⟩] else obs
  | none => obs

/-- `ContinuousMonitor.collect_observation` (lines 175-207): append the NWS
reading if truthy, then the OpenMeteo reading if truthy. -/
def collect_observation (obs : List TemperatureObservation) (tick : Tick) :
    List TemperatureObservation :=
  appendIfTruthy (appendIfTruthy obs tick.timestamp "NWS" tick.nws)
    tick.timestamp "OpenMeteo" tick.openmeteo

/-- The poll loop of `monitor_buffer_period` (lines 294-318): per tick,
collect the observations, and once at least 3 observations exist run the
peak detector, breaking out as soon as `detected_max is not None`. Returns
the accumulated observation list and the detection result (if any). -/
def runLoop : List TemperatureObservation → List Tick →
    List TemperatureObservation × Option (ℚ × Option String × ℚ)
  | obs, [] => (obs, none)
  | obs, tick :: rest =>
    let obs2 := collect_observation obs tick
    if 3 ≤ obs2.length then
      match detect_max_temperature obs2 with
      | (some m, ts, c) => (obs2, some (m, ts, c))
      | (none, _, _) => runLoop obs2 rest
    else runLoop obs2 rest

/-- Python `int(q)`: truncation toward zero. -/
def intTrunc (q : ℚ) : ℤ := if q < 0 then -(⌊-q⌋) else ⌊q⌋

/-- `smart_observed_strategy.MonitoringSession` (lines 38-50). The
clock-derived strings (`date`, `start_time`, `end_time`) are all taken from
an externally supplied `now`; `bet_decision` is the string
`f"{bet_low}° to {bet_high}°"`, modelled by its two numbers. -/
structure MonitoringSession where
  date : String
  start_time : String
  end_time : String
  predicted_max_hour : ℤ
  predicted_max_temp : ℚ
  observations : List TemperatureObservation
  detected_max_temp : ℚ
  detected_max_time : Option String
  confidence : ℚ
  bet_low : ℤ
  bet_high : ℤ

/-- The fallback ladder of lines 320-335: a detection keeps its values;
otherwise with at least one observation use the highest observed value
(confidence 0.75); with none fall back to the forecast (confidence 0.60). -/
def fallbackTriple (now : String) (p : ℚ) (obs : List TemperatureObservation)
    (det : Option (ℚ × Option String × ℚ)) : ℚ × Option String × ℚ :=
  match det, obs with
  | some (m, ts, c), _ => (m, ts, c)
  | none, [] => (p, some now, mkRat 3 5)
  | none, a :: t => ((pymaxTemp a t).temperature, some (pymaxTemp a t).timestamp, mkRat 3 4)

/-- Session construction of lines 337-354. -/
def finalizeSession (now : String) (hour : ℤ) (p : ℚ)
    (obs : List TemperatureObservation) (det : Option (ℚ × Option String × ℚ)) :
    MonitoringSession :=
  { date := now
    start_time := now
    end_time := now
    predicted_max_hour := hour
    predicted_max_temp := p
    observations := obs
    detected_max_temp := (fallbackTriple now p obs det).1
    detected_max_time := (fallbackTriple now p obs det).2.1
    confidence := (fallbackTriple now p obs det).2.2
    bet_low := intTrunc (fallbackTriple now p obs det).1
    bet_high := intTrunc (fallbackTriple now p obs det).1 + 1 }

/-- `ContinuousMonitor.monitor_buffer_period` (lines 248-368).
`beforeBuffer` models the clock comparison at line 278: invoked before the
buffer window the function returns `None` without starting the poll loop
(the spec's `WaitingForWindow` state). Otherwise the poll loop runs and the
session is always finalized from whatever it accumulated. -/
def monitor_buffer_period (beforeBuffer : Bool) (now : String) (hour : ℤ)
    (p : ℚ) (ticks : List Tick) : Option MonitoringSession :=
  if beforeBuffer then none
  else some (finalizeSession now hour p (runLoop [] ticks).1 (runLoop [] ticks).2)

/-! ## EnhancedLiveTrader.get_today_forecast
(`live_trader_enhanced.py` lines 91-149) -/

/-- Per-source fetch results for one day, `None` on failure. -/
structure FetchResults where
  openmeteo : Option ℚ
  nws : Option ℚ
  foreca : Option ℚ
  weather_channel : Option ℚ
  msn : Option ℚ
  openweathermap : Option ℚ
  weatherapi : Option ℚ
deriving DecidableEq

/-- One `if temp:`-guarded insertion into the forecasts mapping: the source
is included only when the fetched value is truthy (present and non-zero). -/
def addIfTruthy (l : List (String × ℚ)) (name : String) :
    Option ℚ → List (String × ℚ)
  | some t => if t ≠ 0 then l ++ [(name, t)] else l
  | none => l

/-- `EnhancedLiveTrader.get_today_forecast` (lines 91-149): build the
forecasts mapping in code order — OpenMeteo, NWS, then Foreca / WeatherChannel
/ MSN behind their include flags, then OpenWeatherMap / WeatherAPI behind
their API-key guards. The boolean parameters model flag and key presence. -/
def get_today_forecast (r : FetchResults)
    (include_msn include_foreca include_weather_channel : Bool)
    (owm_key weatherapi_key : Bool) : List (String × ℚ) :=
  let f1 := addIfTruthy [] "OpenMeteo" r.openmeteo
  let f2 := addIfTruthy f1 "NWS" r.nws
  let f3 := if include_foreca then addIfTruthy f2 "Foreca" r.foreca else f2
  let f4 := if include_weather_channel then
    addIfTruthy f3 "WeatherChannel" r.weather_channel else f3
  let f5 := if include_msn then addIfTruthy f4 "MSN" r.msn else f4
  let f6 := if owm_key then addIfTruthy f5 "OpenWeatherMap" r.openweathermap else f5
  if weatherapi_key then addIfTruthy f6 "WeatherAPI" r.weatherapi else f6

/-- The entries a tick contributes for one source. -/
def tickEntry (ts src : String) : Option ℚ → List TemperatureObservation
  | some t => if t ≠ 0 then [⟨ts, src, t, false⟩] else []
  | none => []

/-! ## RangeMatcher: `KalshiFetcher.parse_market_range` and
`find_market_for_forecast` (`data_fetchers.py` lines 177-202 and 247-257) -/

/-- A Python float as used by the range code: finite, `float('inf')` or
`float('-inf')`. -/
inductive PyFloat where
  | negInf : PyFloat
  | fin : ℚ → PyFloat
  | posInf : PyFloat
deriving DecidableEq

/-- Python `<=` on these floats. -/
def PyFloat.le : PyFloat → PyFloat → Bool
  | .negInf, _ => true
  | _, .posInf => true
  | .fin a, .fin b => decide (a ≤ b)
  | _, _ => false

/-- `\s` on the ASCII range: the whitespace characters Python's `re` accepts. -/
def isPySpace (c : Char) : Bool :=
  c = ' ' || c = '\t' || c = '\n' || c = '\r' || c = '\x0b' || c = '\x0c'

/-- Numeric value of a digit run (`float(match.group(i))` on a `\d+` group). -/
def digitsVal (ds : List Char) : Nat :=
  ds.foldl (fun n c => 10 * n + (c.toNat - '0'.toNat)) 0

/-- Match the common prefix `(\d+)°\s+` of all three patterns at the head of
the input: a nonempty greedy digit run, the degree sign, then a nonempty
greedy whitespace run. Greediness is exact here: shortening a `\d+`/`\s+`
run on backtracking leaves the same character class next, which can never
equal the distinct following literal. Returns the group value and the rest. -/
def matchNumDeg (cs : List Char) : Option (Nat × List Char) :=
  let d1 := cs.takeWhile Char.isDigit
  let r1 := cs.dropWhile Char.isDigit
  if d1.isEmpty then none
  else
    match r1 with
    | '°' :: r2 =>
      let s1 := r2.takeWhile isPySpace
      let r3 := r2.dropWhile isPySpace
      if s1.isEmpty then none else some (digitsVal d1, r3)
    | _ => none

/-- Match `(\d+)°\s+to\s+(\d+)°` at the head of the input. -/
def matchRangeAt (cs : List Char) : Option (ℚ × ℚ) :=
  match matchNumDeg cs with
  | some (x, r3) =>
    match r3 with
    | 't' :: 'o' :: r4 =>
      let s2 := r4.takeWhile isPySpace
      let r5 := r4.dropWhile isPySpace
      if s2.isEmpty then none
      else
        let d2 := r5.takeWhile Char.isDigit
        let r6 := r5.dropWhile Char.isDigit
        if d2.isEmpty then none
        else
          match r6 with
          | '°' :: _ => some ((x : ℚ), (digitsVal d2 : ℚ))
          | _ => none
    | _ => none
  | none => none

/-- Match `(\d+)°\s+or\s+above` at the head of the input. -/
def matchAboveAt (cs : List Char) : Option ℚ :=
  match matchNumDeg cs with
  | some (x, r3) =>
    match r3 with
    | 'o' :: 'r' :: r4 =>
      let s2 := r4.takeWhile isPySpace
      let r5 := r4.dropWhile isPySpace
      if s2.isEmpty then none
      else
        match r5 with
        | 'a' :: 'b' :: 'o' :: 'v' :: 'e' :: _ => some (x : ℚ)
        | _ => none
    | _ => none
  | none => none

/-- Match `(\d+)°\s+or\s+below` at the head of the input. -/
def matchBelowAt (cs : List Char) : Option ℚ :=
  match matchNumDeg cs with
  | some (x, r3) =>
    match r3 with
    | 'o' :: 'r' :: r4 =>
      let s2 := r4.takeWhile isPySpace
      let r5 := r4.dropWhile isPySpace
      if s2.isEmpty then none
      else
        match r5 with
        | 'b' :: 'e' :: 'l' :: 'o' :: 'w' :: _ => some (x : ℚ)
        | _ => none
    | _ => none
  | none => none

/-- `re.search`: try the pattern at each start position, left to right, and
return the first match. (Every pattern here begins with `\d+`, so the empty
suffix can never match and need not be tried.) -/
def searchFirst (f : List Char → Option α) : List Char → Option α
  | [] => none
  | c :: rest =>
    match f (c :: rest) with
    | some r => some r
    | none => searchFirst f rest

/-- `KalshiFetcher.parse_market_range` (lines 177-202): try the three regex
forms in order; on no match return the sentinel `(0, 0)` of line 202. -/
def parse_market_range (subtitle : String) : PyFloat × PyFloat :=
  match searchFirst matchRangeAt subtitle.data with
  | some (x, y) => (.fin x, .fin y)
  | none =>
    match searchFirst matchAboveAt subtitle.data with
    | some x => (.fin x, .posInf)
    | none =>
      match searchFirst matchBelowAt subtitle.data with
      | some x => (.negInf, .fin x)
      | none => (.fin 0, .fin 0)

/-- `data_fetchers.KalshiMarket`, reduced to the fields the range logic
reads. -/
structure KalshiMarket where
  ticker : String
  subtitle : String
  temp_range : PyFloat × PyFloat
deriving DecidableEq

/-- A market as built by `get_markets_for_date` (line 222): its range is
parsed from its subtitle. -/
def mkMarket (sub : String) : KalshiMarket := ⟨"", sub, parse_market_range sub⟩

/-- The loop condition of `find_market_for_forecast`:
`low <= forecast_temp <= high`. -/
def inRange (m : KalshiMarket) (v : ℚ) : Bool :=
  m.temp_range.1.le (.fin v) && (PyFloat.fin v).le m.temp_range.2

/-- `KalshiFetcher.find_market_for_forecast` (lines 247-257): return the
first market whose range contains the forecast value, else `None`. -/
def find_market_for_forecast : List KalshiMarket → ℚ → Option KalshiMarket
  | [], _ => none
  | m :: rest, v =>
    if inRange m v then some m else find_market_for_forecast rest v

/-! ## ConsensusEstimator: `EnhancedLiveTrader.get_weighted_consensus`
(`live_trader_enhanced.py` lines 151-211)

The forecasts dictionary is an association list in insertion order; the
decimal constants of the code appear as exact rationals (0.85 = 17/20,
0.70 = 7/10, 1.5 = 3/2, 0.3 = 3/10, 0.8 = 4/5). Only the standard
deviation `variance ** 0.5` (line 203) needs real numbers. -/

/-- The weights table of lines 159-172 combined with the
`weights.get(source, 1.0)` lookup of line 179. -/
def sourceWeight (s : String) : ℚ :=
  if s = "MSN" then 2
  else if s = "NWS" then 2
  else if s = "OpenMeteo" then mkRat 3 2
  else if s = "OpenWeatherMap" then 1
  else if s = "WeatherAPI" then 1
  else if s = "Foreca" then 1
  else if s = "WeatherChannel" then 1
  else 1

/-- Dictionary lookup `forecasts[source]` guarded by `source in forecasts`. -/
def lookupSource (f : List (String × ℚ)) (s : String) : Option ℚ :=
  (f.find? (fun p => p.1 == s)).map (·.2)

/-- The accumulation loop of lines 174-181: `weighted_sum` and
`total_weight`. -/
def weightedTotals (f : List (String × ℚ)) : ℚ × ℚ :=
  f.foldl (fun acc p => (acc.1 + p.2 * sourceWeight p.1, acc.2 + sourceWeight p.1)) (0, 0)

/-- Line 183: `consensus = weighted_sum / total_weight if total_weight > 0
else 0`. -/
def consensusOf (f : List (String × ℚ)) : ℚ :=
  if 0 < (weightedTotals f).2 then (weightedTotals f).1 / (weightedTotals f).2 else 0

/-- Lines 186-195: agreement holds when NWS or MSN is present with a
forecast within (strictly) 1.0° of the consensus. -/
def priorityAgreement (f : List (String × ℚ)) : Bool :=
  (match lookupSource f "NWS" with
   | some t => decide (|t - consensusOf f| < 1)
   | none => false) ||
  (match lookupSource f "MSN" with
   | some t => decide (|t - consensusOf f| < 1)
   | none => false)

/-- Line 197: `base_confidence = 0.85 if priority_agreement else 0.70`. -/
def baseConfidence (f : List (String × ℚ)) : ℚ :=
  if priorityAgreement f then mkRat 17 20 else mkRat 7 10

/-- Line 202: `variance = sum((t - consensus) ** 2 for t in temps) /
len(temps)` — squared deviations about the *weighted* consensus. -/
def varianceOf (f : List (String × ℚ)) : ℚ :=
  ((f.map (fun p => (p.2 - consensusOf f) ^ 2)).sum) / (f.length : ℚ)

/-- Lines 206-207: `confidence = max(0.0, base - min(std_dev / 3.0, 0.3))`
as a function of the base and the standard deviation. -/
noncomputable def confFromStd (base sd : ℝ) : ℝ :=
  max 0 (base - min (sd / 3) ((mkRat 3 10 : ℚ) : ℝ))

/-- Lines 199-209: with more than one sample, penalize the base confidence
by the standard deviation `variance ** 0.5`; with a single sample, return
`base_confidence * 0.8`. -/
noncomputable def confidenceOf (f : List (String × ℚ)) : ℝ :=
  if 1 < f.length then
    confFromStd ((baseConfidence f : ℚ) : ℝ) (Real.sqrt ((varianceOf f : ℚ) : ℝ))
  else ((baseConfidence f : ℚ) : ℝ) * ((mkRat 4 5 : ℚ) : ℝ)

/-- `EnhancedLiveTrader.get_weighted_consensus` (lines 151-211): `(None, 0.0)`
on an empty mapping, else the weighted consensus and its confidence. -/
noncomputable def get_weighted_consensus (f : List (String × ℚ)) : Option ℚ × ℝ :=
  if f = [] then (none, 0) else (some (consensusOf f), confidenceOf f)

/-- The spec's own notion for C7, for comparison with the code: the
population standard deviation squared of the raw temperatures — squared
deviations about their arithmetic mean. -/
def popVariance (temps : List ℚ) : ℚ :=
  ((temps.map (fun t => (t - temps.sum / (temps.length : ℚ)) ^ 2)).sum) / (temps.length : ℚ)

/-- The worked example of the spec: `{OpenMeteo: 57.0, NWS: 58.0, MSN: 58.5}`. -/
def exForecasts : List (String × ℚ) :=
  [("OpenMeteo", 57), ("NWS", 58), ("MSN", mkRat 117 2)]

/-- The two-source input separating the code's deviation-about-consensus
from the population standard deviation. -/
def exTwo : List (String × ℚ) := [("NWS", 58), ("OpenMeteo", 57)]

/-! ## Theorems -/

/-! ### Helper lemmas about the embedded operations -/

/-- `pymaxTemp a l` splits `a :: l` into a strictly-smaller prefix, the
returned element, and a suffix; the returned element is the first one
attaining the maximum temperature. -/
theorem pymaxTemp_spec (a : TemperatureObservation) (l : List TemperatureObservation) :
    ∃ l1 l2, a :: l = l1 ++ pymaxTemp a l :: l2 ∧
      (∀ o ∈ l1, o.temperature < (pymaxTemp a l).temperature) ∧
      (∀ o ∈ a :: l, o.temperature ≤ (pymaxTemp a l).temperature) := by
  induction l generalizing a with
  | nil =>
    exact ⟨[], [], rfl, by simp, by simp [pymaxTemp]⟩
  | cons b t ih =>
    have hstep : pymaxTemp a (b :: t) =
        pymaxTemp (if b.temperature > a.temperature then b else a) t := rfl
    by_cases hb : b.temperature > a.temperature
    · rw [hstep, if_pos hb]
      obtain ⟨l1, l2, h1, h2, h3⟩ := ih b
      have hbm : b.temperature ≤ (pymaxTemp b t).temperature := h3 b (by simp)
      refine ⟨a :: l1, l2, ?_, ?_, ?_⟩
      · simpa using congrArg (a :: ·) h1
      · intro o ho
        rcases List.mem_cons.1 ho with rfl | ho
        · exact lt_of_lt_of_le hb hbm
        · exact h2 o ho
      · intro o ho
        rcases List.mem_cons.1 ho with rfl | ho
        · exact le_of_lt (lt_of_lt_of_le hb hbm)
        · exact h3 o ho
    · rw [hstep, if_neg hb]
      push_neg at hb
      obtain ⟨l1, l2, h1, h2, h3⟩ := ih a
      cases l1 with
      | nil =>
        simp only [List.nil_append] at h1
        obtain ⟨ham, htl⟩ := List.cons.inj h1
        refine ⟨[], b :: t, ?_, by simp, ?_⟩
        · rw [List.nil_append, ← ham]
        · intro o ho
          rcases List.mem_cons.1 ho with rfl | ho
          · exact h3 o (by simp)
          · rcases List.mem_cons.1 ho with rfl | ho
            · exact le_trans hb (h3 a (by simp))
            · exact h3 o (List.mem_cons_of_mem _ ho)
      | cons c l1' =>
        simp only [List.cons_append] at h1
        obtain ⟨hac, htl⟩ := List.cons.inj h1
        have ham : a.temperature < (pymaxTemp a t).temperature := by
          have hc := h2 c (by simp)
          rwa [← hac] at hc
        refine ⟨a :: b :: l1', l2, ?_, ?_, ?_⟩
        · conv_lhs => rw [htl]
          simp
        · intro o ho
          rcases List.mem_cons.1 ho with rfl | ho
          · exact ham
          · rcases List.mem_cons.1 ho with rfl | ho
            · exact lt_of_le_of_lt hb ham
            · exact h2 o (List.mem_cons_of_mem _ ho)
        · intro o ho
          rcases List.mem_cons.1 ho with rfl | ho
          · exact le_of_lt ham
          · rcases List.mem_cons.1 ho with rfl | ho
            · exact le_trans hb (le_of_lt ham)
            · exact h3 o (List.mem_cons_of_mem _ ho)

/-- A chronologically non-decreasing temperature list is never classified as
declining: the final strict decrease `c < b` is impossible. -/
theorem decliningLast3_of_chain {l : List ℚ} (h : List.Chain' (· ≤ ·) l) :
    decliningLast3 l = false := by
  have h2 : List.Chain' (· ≤ ·) (lastN 3 l) :=
    h.sublist (List.drop_sublist _ _)
  unfold decliningLast3
  cases hm : lastN 3 l with
  | nil => simp
  | cons a t =>
    cases t with
    | nil => simp
    | cons b t2 =>
      cases t2 with
      | nil => simp
      | cons c t3 =>
        cases t3 with
        | cons d t4 => simp
        | nil =>
          rw [hm] at h2
          have hbc : b ≤ c := (List.chain'_cons.1 (List.chain'_cons.1 h2).2).1
          simp [decide_eq_false (not_lt.2 hbc)]

/-- `nonDecreasing` agrees with `List.Chain' (· ≤ ·)`. -/
theorem nonDecreasing_iff_chain : ∀ l : List ℚ,
    nonDecreasing l = true ↔ List.Chain' (· ≤ ·) l
  | [] => by simp [nonDecreasing]
  | [a] => by simp [nonDecreasing]
  | a :: b :: t => by
    rw [List.chain'_cons, ← nonDecreasing_iff_chain (b :: t)]
    simp [nonDecreasing]

/-! ### Claim C1 -/

/-- Counterexample to C1: on a window holding three OpenMeteo samples and
zero NWS (primary-source) samples, `detect_max_temperature` still declares a
declining trend (the code at lines 223-225 falls back to all observations
when fewer than 3 NWS samples exist), where the claim demands
`Undetermined`. -/
theorem detect_fires_without_primary_samples :
    (detect_max_temperature exSecondaryOnly).1 = some 58 ∧
    exSecondaryOnly.filter (fun o => o.source == "NWS") = [] := by
  decide

/-- C1 (amended): `detect_max_temperature` returns no detection on fewer
than 3 total observations; on ≥ 3 total observations it declares a declining
trend iff the three most recent temperatures of its pool — the NWS samples
when at least 3 exist, otherwise all observations — satisfy
`t[n] < t[n-1]` and `t[n-1] ≤ t[n-2]`; and on an all-primary,
chronologically non-decreasing window it never fires, regardless of
length. -/
theorem detect_trend_rule :
    (∀ recent : List TemperatureObservation, recent.length < 3 →
        detect_max_temperature recent = (none, none, mkRat 1 2)) ∧
    (∀ recent : List TemperatureObservation, 3 ≤ recent.length →
        ((detect_max_temperature recent).1 ≠ none ↔
          decliningLast3 ((detectPool recent).map (·.temperature)) = true)) ∧
    (∀ recent : List TemperatureObservation,
        (∀ o ∈ recent, o.source = "NWS") →
        nonDecreasing (recent.map (·.temperature)) = true →
        (detect_max_temperature recent).1 = none) := by
  refine ⟨?_, ?_, ?_⟩
  · intro recent h
    simp [detect_max_temperature, h]
  · intro recent h3
    have hlen : ¬ recent.length < 3 := by omega
    have hne : detectPool recent ≠ [] := by
      unfold detectPool
      by_cases hf : (recent.filter (fun o => o.source == "NWS")).length < 3
      · simp only [hf, if_true]
        exact List.ne_nil_of_length_pos (by omega)
      · simp only [hf, if_false]
        exact List.ne_nil_of_length_pos (by omega)
    rw [detect_max_temperature.eq_def]
    simp only [hlen, if_false]
    by_cases hd : decliningLast3 ((detectPool recent).map (·.temperature)) = true
    · rw [if_pos hd]
      cases hp : detectPool recent with
      | nil => exact absurd hp hne
      | cons a t =>
        rw [hp] at hd
        simp only [List.map_cons] at hd
        simp [hd]
    · rw [if_neg hd]
      simp [hd]
  · intro recent hsrc hchain
    rw [nonDecreasing_iff_chain] at hchain
    by_cases hlen : recent.length < 3
    · simp [detect_max_temperature, hlen]
    · have hpool : detectPool recent = recent := by
        unfold detectPool
        have hf : recent.filter (fun o => o.source == "NWS") = recent :=
          List.filter_eq_self.2 (fun o ho => by simp [hsrc o ho])
        rw [hf]
        simp
      have hd : decliningLast3 ((detectPool recent).map (·.temperature)) = false := by
        rw [hpool]
        exact decliningLast3_of_chain hchain
      simp [detect_max_temperature, hlen, hd]

/-- Witness for `detect_trend_rule` at concrete inputs: a 1-element window
gives no detection, a strictly rising all-NWS window gives no detection, and
the declining fixture `[57, 58, 58, 57]` makes detection fire. -/
theorem detect_trend_rule_witness :
    detect_max_temperature [obsNWS "t0" 55] = (none, none, mkRat 1 2) ∧
    (detect_max_temperature exRise).1 = none ∧
    (detect_max_temperature exPeak).1 ≠ none := by
  refine ⟨?_, ?_, ?_⟩
  · exact detect_trend_rule.1 _ (by decide)
  · exact detect_trend_rule.2.2 exRise (by decide) (by decide)
  · exact (detect_trend_rule.2.1 exPeak (by decide)).mpr (by decide)

/-! ### Claim C2 -/

/-- Counterexample to C2: on `exMixed` (one NWS sample among OpenMeteo
samples) detection fires and the returned peak 60 is an OpenMeteo reading —
it is not the temperature of any primary-source sample, whereas the claim
says the detected peak is always the maximum among the primary-source
samples collected so far. -/
theorem detect_peak_not_primary_max :
    (detect_max_temperature exMixed).1 = some 60 ∧
    ∀ o ∈ exMixed, o.source = "NWS" → o.temperature ≠ 60 := by
  decide

/-- C2 (amended): whenever `detect_max_temperature` declares a declining
trend, the returned confidence is the fixed constant 0.90 and the returned
peak/timestamp belong to the first detection-pool element attaining the
pool's maximum temperature (the pool is all NWS samples when ≥ 3 exist,
otherwise all samples): every pool element strictly before it is strictly
colder and no pool element is warmer. On the all-NWS fixture
`[57, 58, 58, 57]` detection fires with peak 58 at the timestamp of the
first 58° reading. -/
theorem detect_peak_spec :
    (∀ recent : List TemperatureObservation, ∀ m : ℚ, ∀ ts : String, ∀ c : ℚ,
        detect_max_temperature recent = (some m, some ts, c) →
        c = mkRat 9 10 ∧
        ∃ l1 o l2, detectPool recent = l1 ++ o :: l2 ∧
          o.temperature = m ∧ o.timestamp = ts ∧
          (∀ p ∈ l1, p.temperature < m) ∧
          (∀ p ∈ detectPool recent, p.temperature ≤ m)) ∧
    detect_max_temperature exPeak = (some 58, some "t1", mkRat 9 10) := by
  constructor
  · intro recent m ts c h
    rw [detect_max_temperature.eq_def] at h
    by_cases hlen : recent.length < 3
    · simp [hlen] at h
    · simp only [hlen, if_false] at h
      by_cases hd : decliningLast3 ((detectPool recent).map (·.temperature)) = true
      · rw [if_pos hd] at h
        cases hp : detectPool recent with
        | nil => rw [hp] at h; simp at h
        | cons a t =>
          rw [hp] at h
          simp only [Prod.mk.injEq, Option.some.injEq] at h
          obtain ⟨hm, hts, hc⟩ := h
          refine ⟨hc.symm, ?_⟩
          obtain ⟨l1, l2, hsplit, hlt, hle⟩ := pymaxTemp_spec a t
          refine ⟨l1, pymaxTemp a t, l2, hp ▸ hsplit, hm, hts, ?_, ?_⟩
          · intro p hpmem
            exact hm ▸ hlt p hpmem
          · intro p hpmem
            exact hm ▸ hle p hpmem
      · rw [if_neg hd] at h
        simp at h
  · decide

/-- Witness for `detect_peak_spec` on the fixture `[57, 58, 58, 57]`:
detection returns confidence 0.90 and a peak no pool element exceeds. -/
theorem detect_peak_spec_witness :
    detect_max_temperature exPeak = (some 58, some "t1", mkRat 9 10) ∧
    ∀ p ∈ detectPool exPeak, p.temperature ≤ 58 := by
  have h := detect_peak_spec.1 exPeak 58 "t1" (mkRat 9 10) (by decide)
  exact ⟨by decide, h.2.choose_spec.choose_spec.choose_spec.2.2.2.2⟩

/-- If the poll loop reports a detection, at least 3 observations had been
accumulated (the detector is only invoked from `len(observations) >= 3`). -/
theorem runLoop_detect_length : ∀ (ticks : List Tick)
    (obs : List TemperatureObservation) (x : ℚ × Option String × ℚ),
    (runLoop obs ticks).2 = some x → 3 ≤ (runLoop obs ticks).1.length := by
  intro ticks
  induction ticks with
  | nil =>
    intro obs x h
    simp [runLoop] at h
  | cons tick rest ih =>
    intro obs x h
    simp only [runLoop] at h ⊢
    by_cases h3 : 3 ≤ (collect_observation obs tick).length
    · rw [if_pos h3] at h ⊢
      cases hdet : detect_max_temperature (collect_observation obs tick) with
      | mk om tsc =>
        rw [hdet] at h
        cases om with
        | some m => exact h3
        | none => exact ih _ x h
    · rw [if_neg h3] at h ⊢
      exact ih _ x h

/-! ### Claim C3 -/

/-- C3 (confirmed): a monitoring run whose poll loop ends without a detected
declining trend finalizes with the highest observed temperature at fixed
confidence 0.75 when at least one observation was collected, and with the
pre-monitoring forecast value at fixed confidence 0.60 when none was; a
detection always carries the fixed confidence 0.90, and the three tiers are
strictly ordered 0.90 > 0.75 > 0.60. -/
theorem monitor_fallback_tiers :
    (∀ (now : String) (hour : ℤ) (p : ℚ) (ticks : List Tick),
        (runLoop [] ticks).2 = none →
        ∃ s, monitor_buffer_period false now hour p ticks = some s ∧
          s.observations = (runLoop [] ticks).1 ∧
          ((runLoop [] ticks).1 ≠ [] →
            s.confidence = mkRat 3 4 ∧
            s.detected_max_temp ∈ (runLoop [] ticks).1.map (·.temperature) ∧
            ∀ o ∈ (runLoop [] ticks).1, o.temperature ≤ s.detected_max_temp) ∧
          ((runLoop [] ticks).1 = [] →
            s.confidence = mkRat 3 5 ∧ s.detected_max_temp = p)) ∧
    (∀ (recent : List TemperatureObservation) (m : ℚ) (ts : Option String) (c : ℚ),
        detect_max_temperature recent = (some m, ts, c) → c = mkRat 9 10) ∧
    (mkRat 3 5 < mkRat 3 4 ∧ mkRat 3 4 < mkRat 9 10) := by
  refine ⟨?_, ?_, by decide⟩
  · intro now hour p ticks hdet
    refine ⟨finalizeSession now hour p (runLoop [] ticks).1 (runLoop [] ticks).2,
      by simp [monitor_buffer_period], rfl, ?_, ?_⟩
    · intro hne
      cases hobs : (runLoop [] ticks).1 with
      | nil => exact absurd hobs hne
      | cons a t =>
        obtain ⟨l1, l2, hsplit, hlt, hle⟩ := pymaxTemp_spec a t
        have hmem : pymaxTemp a t ∈ a :: t := by
          rw [hsplit]
          exact List.mem_append_right _ (List.mem_cons_self _ _)
        refine ⟨?_, ?_, ?_⟩
        · simp [finalizeSession, fallbackTriple, hdet, hobs]
        · simp only [finalizeSession, fallbackTriple, hdet, hobs]
          exact List.mem_map.2 ⟨pymaxTemp a t, hmem, rfl⟩
        · intro o ho
          simp only [finalizeSession, fallbackTriple, hdet]
          exact hle o ho
    · intro hobs
      simp [finalizeSession, fallbackTriple, hdet, hobs]
  · intro recent m ts c h
    rw [detect_max_temperature.eq_def] at h
    by_cases hlen : recent.length < 3
    · simp [hlen] at h
    · simp only [hlen, if_false] at h
      by_cases hd : decliningLast3 ((detectPool recent).map (·.temperature)) = true
      · rw [if_pos hd] at h
        cases hp : detectPool recent with
        | nil => rw [hp] at h; simp at h
        | cons a t =>
          rw [hp] at h
          simp only [Prod.mk.injEq] at h
          exact h.2.2.symm
      · rw [if_neg hd] at h
        simp at h

/-- Witness for `monitor_fallback_tiers`: a single-tick run with one
successful NWS fetch ends undetected and finalizes at the 0.75 tier, and a
concrete detecting window returns confidence 0.90. -/
theorem monitor_fallback_tiers_witness :
    (∃ s, monitor_buffer_period false "14:00" 14 60 [⟨"t0", some 57, none⟩] = some s ∧
      s.confidence = mkRat 3 4) ∧ mkRat 9 10 = mkRat 9 10 := by
  constructor
  · obtain ⟨s, hs, _, hne, _⟩ :=
      monitor_fallback_tiers.1 "14:00" 14 60 [⟨"t0", some 57, none⟩] (by decide)
    exact ⟨s, hs, (hne (by decide)).1⟩
  · exact monitor_fallback_tiers.2.1 exPeak 58 (some "t1") (mkRat 9 10) (by decide)

/-! ### Claim C9 -/

/-- C9 (confirmed): once the poll loop has started (the pre-window
`WaitingForWindow` early return at line 278-284 is not a poll-loop run), a
run over any tick list — terminated at any iteration boundary, including
after zero iterations, or with every fetch failing — always finalizes a
`MonitoringSession` by the same fallback ladder used at a natural timeout;
with zero collected observations it uses the forecast-fallback tier 0.60.
No exception value exists in the model: the finalizer is total. -/
theorem monitor_always_finalizes :
    (∀ (now : String) (hour : ℤ) (p : ℚ) (ticks : List Tick),
        monitor_buffer_period false now hour p ticks =
          some (finalizeSession now hour p (runLoop [] ticks).1 (runLoop [] ticks).2)) ∧
    (∀ (now : String) (hour : ℤ) (p : ℚ) (ticks : List Tick),
        (runLoop [] ticks).1 = [] →
        ∃ s, monitor_buffer_period false now hour p ticks = some s ∧
          s.confidence = mkRat 3 5 ∧ s.detected_max_temp = p ∧ s.observations = []) ∧
    (∀ (now : String) (hour : ℤ) (p : ℚ),
        ∃ s, monitor_buffer_period false now hour p [] = some s ∧
          s.confidence = mkRat 3 5 ∧ s.detected_max_temp = p) := by
  refine ⟨fun now hour p ticks => by simp [monitor_buffer_period], ?_, ?_⟩
  · intro now hour p ticks hobs
    have hdet : (runLoop [] ticks).2 = none := by
      cases hd : (runLoop [] ticks).2 with
      | none => rfl
      | some x =>
        have := runLoop_detect_length ticks [] x hd
        rw [hobs] at this
        simp at this
    exact ⟨finalizeSession now hour p (runLoop [] ticks).1 (runLoop [] ticks).2,
      by simp [monitor_buffer_period],
      by simp [finalizeSession, fallbackTriple, hdet, hobs],
      by simp [finalizeSession, fallbackTriple, hdet, hobs],
      hobs⟩
  · intro now hour p
    exact ⟨finalizeSession now hour p [] none,
      by simp [monitor_buffer_period, runLoop],
      by simp [finalizeSession, fallbackTriple],
      by simp [finalizeSession, fallbackTriple]⟩

/-- Witness for `monitor_always_finalizes`: a session whose only tick had
both fetches fail (or that was stopped before any tick) still yields a
finalized session at the forecast tier. -/
theorem monitor_always_finalizes_witness :
    ∃ s, monitor_buffer_period false "14:05" 14 (mkRat 115 2) [⟨"t0", none, none⟩] = some s ∧
      s.confidence = mkRat 3 5 ∧ s.detected_max_temp = mkRat 115 2 ∧ s.observations = [] := by
  exact monitor_always_finalizes.2.1 "14:05" 14 (mkRat 115 2) [⟨"t0", none, none⟩] (by decide)

theorem appendIfTruthy_eq (obs : List TemperatureObservation) (ts src : String)
    (x : Option ℚ) : appendIfTruthy obs ts src x = obs ++ tickEntry ts src x := by
  cases x with
  | none => simp [appendIfTruthy, tickEntry]
  | some t =>
    by_cases h : t ≠ 0
    · simp [appendIfTruthy, tickEntry, h]
    · simp [appendIfTruthy, tickEntry, h]

theorem addIfTruthy_nonzero {l : List (String × ℚ)} (name : String) (x : Option ℚ)
    (h : ∀ p ∈ l, p.2 ≠ 0) : ∀ p ∈ addIfTruthy l name x, p.2 ≠ 0 := by
  cases x with
  | none => exact h
  | some t =>
    by_cases ht : t ≠ 0
    · simp only [addIfTruthy]
      rw [if_pos ht]
      intro p hp
      rcases List.mem_append.1 hp with hp | hp
      · exact h p hp
      · simp at hp
        rw [hp]
        exact ht
    · simp only [addIfTruthy]
      rw [if_neg ht]
      exact h

theorem ite_addIfTruthy_nonzero {l : List (String × ℚ)} (b : Bool) (name : String)
    (x : Option ℚ) (h : ∀ p ∈ l, p.2 ≠ 0) :
    ∀ p ∈ (if b then addIfTruthy l name x else l), p.2 ≠ 0 := by
  cases b with
  | false => simpa using h
  | true => simpa using addIfTruthy_nonzero name x h

/-! ### Claim C10 -/

/-- C10 (confirmed): a fetched temperature of exactly 0.0 behaves exactly
like a failed fetch. `collect_observation` appends, per source, precisely
the truthy readings (present and non-zero) — a 0.0 NWS or OpenMeteo reading
leaves the window unchanged — and every entry of the forecasts mapping built
by `get_today_forecast` has a non-zero temperature, a 0.0 fetch being
indistinguishable from an absent one. -/
theorem zero_reading_treated_as_failure :
    (∀ (obs : List TemperatureObservation) (tick : Tick),
        collect_observation obs tick =
          obs ++ tickEntry tick.timestamp "NWS" tick.nws ++
            tickEntry tick.timestamp "OpenMeteo" tick.openmeteo) ∧
    (∀ (obs : List TemperatureObservation) (ts : String) (om : Option ℚ),
        collect_observation obs ⟨ts, some 0, om⟩ =
        collect_observation obs ⟨ts, none, om⟩) ∧
    (∀ (obs : List TemperatureObservation) (ts : String) (nws : Option ℚ),
        collect_observation obs ⟨ts, nws, some 0⟩ =
        collect_observation obs ⟨ts, nws, none⟩) ∧
    (∀ (r : FetchResults) (b1 b2 b3 b4 b5 : Bool) (s : String) (t : ℚ),
        (s, t) ∈ get_today_forecast r b1 b2 b3 b4 b5 → t ≠ 0) ∧
    (∀ (r : FetchResults) (b1 b2 b3 b4 b5 : Bool),
        get_today_forecast { r with nws := some 0 } b1 b2 b3 b4 b5 =
        get_today_forecast { r with nws := none } b1 b2 b3 b4 b5) := by
  refine ⟨?_, ?_, ?_, ?_, ?_⟩
  · intro obs tick
    rw [collect_observation, appendIfTruthy_eq, appendIfTruthy_eq]
  · intro obs ts om
    simp [collect_observation, appendIfTruthy]
  · intro obs ts nws
    simp [collect_observation, appendIfTruthy]
  · intro r b1 b2 b3 b4 b5 s t hmem
    have h0 : ∀ p ∈ ([] : List (String × ℚ)), p.2 ≠ 0 := by simp
    have h1 := addIfTruthy_nonzero "OpenMeteo" r.openmeteo h0
    have h2 := addIfTruthy_nonzero "NWS" r.nws h1
    have h3 := ite_addIfTruthy_nonzero b2 "Foreca" r.foreca h2
    have h4 := ite_addIfTruthy_nonzero b3 "WeatherChannel" r.weather_channel h3
    have h5 := ite_addIfTruthy_nonzero b1 "MSN" r.msn h4
    have h6 := ite_addIfTruthy_nonzero b4 "OpenWeatherMap" r.openweathermap h5
    have h7 := ite_addIfTruthy_nonzero b5 "WeatherAPI" r.weatherapi h6
    exact h7 (s, t) hmem
  · intro r b1 b2 b3 b4 b5
    simp [get_today_forecast, addIfTruthy]

/-- Witness for `zero_reading_treated_as_failure`: on a concrete day where
NWS fetched 57°F, the mapping entry forces a non-zero reading. -/
theorem zero_reading_treated_as_failure_witness :
    ((57 : ℚ) ≠ 0) ∧
    collect_observation [] ⟨"t0", some 0, none⟩ = [] := by
  constructor
  · exact zero_reading_treated_as_failure.2.2.2.1
      ⟨some 56, some 57, none, none, none, none, none⟩ true false false false false
      "NWS" 57 (by decide)
  · exact (zero_reading_treated_as_failure.2.1 [] "t0" none).trans (by decide)

/-! ### Claim C4 -/

/-- Counterexample to C4: `parse_market_range("garbage")` does not fail —
line 202 returns the numeric pair `(0, 0)`, a real (degenerate) range that
`find_market_for_forecast` happily matches at temperature 0, whereas the
claim requires a ParseError rather than any numeric range. -/
theorem parse_range_garbage_is_numeric :
    parse_market_range "garbage" = (.fin 0, .fin 0) ∧
    find_market_for_forecast [mkMarket "garbage"] 0 = some (mkMarket "garbage") := by
  decide

/-- C4 (amended): `parse_market_range` maps `"X° to Y°"` to `(X, Y)`,
`"X° or above"` to `(X, +∞)`, `"X° or below"` to `(-∞, X)` — witnessed on
the three claimed inputs — and for every string in which none of the three
patterns occurs anywhere (in particular `"garbage"`) it returns the numeric
sentinel `(0, 0)` instead of an error. -/
theorem parse_range_forms :
    parse_market_range "59° to 60°" = (.fin 59, .fin 60) ∧
    parse_market_range "65° or above" = (.fin 65, .posInf) ∧
    parse_market_range "56° or below" = (.negInf, .fin 56) ∧
    parse_market_range "garbage" = (.fin 0, .fin 0) ∧
    (∀ s : String,
        searchFirst matchRangeAt s.data = none →
        searchFirst matchAboveAt s.data = none →
        searchFirst matchBelowAt s.data = none →
        parse_market_range s = (.fin 0, .fin 0)) := by
  refine ⟨by decide, by decide, by decide, by decide, ?_⟩
  intro s h1 h2 h3
  simp [parse_market_range, h1, h2, h3]

/-- Witness for `parse_range_forms` at the pattern-free string `"xyz"`. -/
theorem parse_range_forms_witness :
    parse_market_range "xyz" = (.fin 0, .fin 0) :=
  parse_range_forms.2.2.2.2 "xyz" (by decide) (by decide) (by decide)

/-! ### Claim C5 -/

/-- C5 (confirmed): `find_market_for_forecast` returns the first market of
the sequence whose closed range contains the value — every earlier market
fails the containment test — and returns `None` exactly when no market's
range contains the value; both interval ends are inclusive, so 59.0 and
60.0 both classify into the only overlapping range `"59° to 60°"`. -/
theorem classify_first_match :
    (∀ (markets : List KalshiMarket) (v : ℚ) (m : KalshiMarket),
        find_market_for_forecast markets v = some m →
        inRange m v = true ∧
        ∃ l1 l2, markets = l1 ++ m :: l2 ∧ ∀ p ∈ l1, inRange p v = false) ∧
    (∀ (markets : List KalshiMarket) (v : ℚ),
        find_market_for_forecast markets v = none ↔
        ∀ m ∈ markets, inRange m v = false) ∧
    (find_market_for_forecast
        [mkMarket "57° to 58°", mkMarket "59° to 60°", mkMarket "65° or above"] 59 =
      some (mkMarket "59° to 60°") ∧
     find_market_for_forecast
        [mkMarket "57° to 58°", mkMarket "59° to 60°", mkMarket "65° or above"] 60 =
      some (mkMarket "59° to 60°")) := by
  refine ⟨?_, ?_, by decide, by decide⟩
  · intro markets v
    induction markets with
    | nil => intro m h; simp [find_market_for_forecast] at h
    | cons a rest ih =>
      intro m h
      rw [find_market_for_forecast] at h
      by_cases ha : inRange a v = true
      · rw [if_pos ha] at h
        obtain rfl := Option.some.inj h
        exact ⟨ha, [], rest, rfl, by simp⟩
      · rw [if_neg ha] at h
        obtain ⟨hm, l1, l2, heq, hall⟩ := ih m h
        refine ⟨hm, a :: l1, l2, by rw [heq]; rfl, ?_⟩
        intro p hp
        rcases List.mem_cons.1 hp with rfl | hp
        · exact Bool.not_eq_true _ ▸ (by simpa using ha)
        · exact hall p hp
  · intro markets v
    induction markets with
    | nil => simp [find_market_for_forecast]
    | cons a rest ih =>
      rw [find_market_for_forecast]
      by_cases ha : inRange a v = true
      · rw [if_pos ha]
        simp [ha]
      · rw [if_neg ha]
        rw [ih]
        constructor
        · intro hrest p hp
          rcases List.mem_cons.1 hp with rfl | hp
          · simpa using ha
          · exact hrest p hp
        · intro hall p hp
          exact hall p (List.mem_cons_of_mem _ hp)

/-- Witness for `classify_first_match`: applying the first-match
characterization at value 59 shows the matched range contains it. -/
theorem classify_first_match_witness :
    inRange (mkMarket "59° to 60°") 59 = true := by
  exact (classify_first_match.1
    [mkMarket "57° to 58°", mkMarket "59° to 60°", mkMarket "65° or above"] 59
    (mkMarket "59° to 60°") (by decide)).1

theorem sourceWeight_pos (s : String) : 0 < sourceWeight s := by
  unfold sourceWeight
  split_ifs <;> decide

theorem weightedTotals_eq (f : List (String × ℚ)) :
    weightedTotals f = ((f.map (fun p => p.2 * sourceWeight p.1)).sum,
      (f.map (fun p => sourceWeight p.1)).sum) := by
  have key : ∀ (l : List (String × ℚ)) (acc : ℚ × ℚ),
      l.foldl (fun acc p => (acc.1 + p.2 * sourceWeight p.1, acc.2 + sourceWeight p.1)) acc =
      (acc.1 + (l.map (fun p => p.2 * sourceWeight p.1)).sum,
       acc.2 + (l.map (fun p => sourceWeight p.1)).sum) := by
    intro l
    induction l with
    | nil => intro acc; simp
    | cons a t ih =>
      intro acc
      simp only [List.foldl_cons, List.map_cons, List.sum_cons]
      rw [ih]
      simp only [Prod.mk.injEq]
      constructor <;> ring
  have h := key f (0, 0)
  rw [weightedTotals, h]
  simp

theorem totalWeight_pos (f : List (String × ℚ)) (h : f ≠ []) :
    0 < (f.map (fun p => sourceWeight p.1)).sum := by
  cases f with
  | nil => exact absurd rfl h
  | cons a t =>
    simp only [List.map_cons, List.sum_cons]
    have h1 : 0 < sourceWeight a.1 := sourceWeight_pos a.1
    have h2 : 0 ≤ (t.map (fun p => sourceWeight p.1)).sum :=
      List.sum_nonneg (by
        intro x hx
        obtain ⟨p, _, rfl⟩ := List.mem_map.1 hx
        exact le_of_lt (sourceWeight_pos p.1))
    linarith

theorem consensusOf_eq (f : List (String × ℚ)) (h : f ≠ []) :
    consensusOf f = (f.map (fun p => p.2 * sourceWeight p.1)).sum /
      (f.map (fun p => sourceWeight p.1)).sum := by
  rw [consensusOf, weightedTotals_eq]
  simp only
  rw [if_pos (totalWeight_pos f h)]

theorem sourceWeight_OpenMeteo : sourceWeight "OpenMeteo" = mkRat 3 2 := by decide

theorem sourceWeight_NWS : sourceWeight "NWS" = 2 := by decide

theorem sourceWeight_MSN : sourceWeight "MSN" = 2 := by decide

/-- The spec's worked example evaluates to 637/11 ≈ 57.909, not 58.1,
because the code weighs OpenMeteo at 1.5. -/
theorem consensusOf_example : consensusOf exForecasts = mkRat 637 11 := by
  rw [consensusOf_eq exForecasts (by decide)]
  norm_num [exForecasts, sourceWeight_OpenMeteo, sourceWeight_NWS, sourceWeight_MSN,
    mkRat, Rat.normalize]

theorem consensusOf_exTwo : consensusOf exTwo = mkRat 403 7 := by
  rw [consensusOf_eq exTwo (by decide)]
  norm_num [exTwo, sourceWeight_OpenMeteo, sourceWeight_NWS, mkRat, Rat.normalize]

theorem varianceOf_exTwo : varianceOf exTwo = mkRat 25 98 := by
  rw [varianceOf, consensusOf_exTwo]
  norm_num [exTwo, mkRat, Rat.normalize]

theorem priorityAgreement_exTwo : priorityAgreement exTwo = true := by
  rw [priorityAgreement, consensusOf_exTwo]
  norm_num [exTwo, lookupSource, List.find?, mkRat, Rat.normalize, abs_lt]

theorem popVariance_exTwo : popVariance (exTwo.map (·.2)) = mkRat 1 4 := by
  norm_num [popVariance, exTwo, mkRat, Rat.normalize]

theorem consensusOf_single (s : String) (t : ℚ) : consensusOf [(s, t)] = t := by
  rw [consensusOf_eq _ (by simp)]
  simp only [List.map_cons, List.map_nil, List.sum_cons, List.sum_nil, add_zero]
  exact mul_div_cancel_right₀ t (ne_of_gt (sourceWeight_pos s))

theorem priorityAgreement_single_priority (s : String) (t : ℚ)
    (h : s = "NWS" ∨ s = "MSN") : priorityAgreement [(s, t)] = true := by
  have hc := consensusOf_single s t
  rcases h with rfl | rfl <;>
    simp [priorityAgreement, lookupSource, List.find?, hc]

theorem priorityAgreement_single_other (s : String) (t : ℚ)
    (h1 : s ≠ "NWS") (h2 : s ≠ "MSN") : priorityAgreement [(s, t)] = false := by
  have hb1 : (s == "NWS") = false := beq_eq_false_iff_ne.2 h1
  have hb2 : (s == "MSN") = false := beq_eq_false_iff_ne.2 h2
  simp [priorityAgreement, lookupSource, List.find?, hb1, hb2]

/-- Single-sample confidence for a priority source: 0.85 · 0.8 = 0.68. -/
theorem conf_single_priority (s : String) (t : ℚ) (h : s = "NWS" ∨ s = "MSN") :
    (get_weighted_consensus [(s, t)]).2 = (17/25 : ℝ) := by
  have hpa := priorityAgreement_single_priority s t h
  have hq : (mkRat 17 20 : ℚ) = 17/20 := by norm_num [mkRat, Rat.normalize]
  have hq2 : (mkRat 4 5 : ℚ) = 4/5 := by norm_num [mkRat, Rat.normalize]
  simp only [get_weighted_consensus, confidenceOf, baseConfidence, hpa, if_true]
  norm_num [hq, hq2]

/-- Single-sample confidence for any non-priority source: 0.70 · 0.8 = 0.56. -/
theorem conf_single_other (s : String) (t : ℚ) (h1 : s ≠ "NWS") (h2 : s ≠ "MSN") :
    (get_weighted_consensus [(s, t)]).2 = (14/25 : ℝ) := by
  have hpa := priorityAgreement_single_other s t h1 h2
  have hq : (mkRat 7 10 : ℚ) = 7/10 := by norm_num [mkRat, Rat.normalize]
  have hq2 : (mkRat 4 5 : ℚ) = 4/5 := by norm_num [mkRat, Rat.normalize]
  simp only [get_weighted_consensus, confidenceOf, baseConfidence, hpa, if_false,
    Bool.false_eq_true]
  norm_num [hq, hq2]

/-! ### Claim C6 -/

/-- Counterexample to C6: at the spec's own example input the consensus is
637/11 ≈ 57.91, not 58.1 — the code's weight table fixes OpenMeteo at 1.5,
not at the claimed default 1.0 — and the resulting value classifies into the
"57° to 58°" bucket, not "58° to 59°". -/
theorem consensus_example_not_58_1 :
    (get_weighted_consensus exForecasts).1 ≠ some (mkRat 581 10) ∧
    (get_weighted_consensus exForecasts).1 = some (mkRat 637 11) ∧
    find_market_for_forecast
        [mkMarket "57° to 58°", mkMarket "58° to 59°", mkMarket "59° to 60°"]
        (mkRat 637 11) = some (mkMarket "57° to 58°") := by
  have hv : (get_weighted_consensus exForecasts).1 = some (mkRat 637 11) := by
    simp only [get_weighted_consensus]
    rw [if_neg (by decide : ¬ exForecasts = [])]
    simp [consensusOf_example]
  refine ⟨?_, hv, by decide⟩
  rw [hv]
  simp only [ne_eq, Option.some.injEq]
  decide

/-- C6 (amended): for every non-empty forecast mapping the consensus equals
`Σ(temp·weight)/Σ(weight)` with per-source weights
`{MSN: 2, NWS: 2, OpenMeteo: 1.5, others/default: 1}`; on the example
`{OpenMeteo: 57, NWS: 58, MSN: 58.5}` this yields 637/11 ≈ 57.91, which
classifies into the `(57, 58)` market. -/
theorem weighted_consensus_formula :
    (∀ f : List (String × ℚ), f ≠ [] →
        (get_weighted_consensus f).1 =
          some ((f.map (fun p => p.2 * sourceWeight p.1)).sum /
            (f.map (fun p => sourceWeight p.1)).sum)) ∧
    (get_weighted_consensus exForecasts).1 = some (mkRat 637 11) ∧
    find_market_for_forecast
        [mkMarket "57° to 58°", mkMarket "58° to 59°", mkMarket "59° to 60°"]
        (mkRat 637 11) = some (mkMarket "57° to 58°") := by
  have key : ∀ f : List (String × ℚ), f ≠ [] →
      (get_weighted_consensus f).1 =
        some ((f.map (fun p => p.2 * sourceWeight p.1)).sum /
          (f.map (fun p => sourceWeight p.1)).sum) := by
    intro f h
    simp only [get_weighted_consensus]
    rw [if_neg h]
    simp [consensusOf_eq f h]
  refine ⟨key, ?_, by decide⟩
  rw [key exForecasts (by decide)]
  norm_num [exForecasts, sourceWeight_OpenMeteo, sourceWeight_NWS, sourceWeight_MSN,
    mkRat, Rat.normalize]

/-- Witness for `weighted_consensus_formula` at the example mapping. -/
theorem weighted_consensus_formula_witness :
    (get_weighted_consensus exForecasts).1 =
      some ((exForecasts.map (fun p => p.2 * sourceWeight p.1)).sum /
        (exForecasts.map (fun p => sourceWeight p.1)).sum) :=
  weighted_consensus_formula.1 exForecasts (by decide)

/-! ### Claim C7 -/

theorem priorityAgreement_iff (f : List (String × ℚ)) :
    priorityAgreement f = true ↔
      (∃ t, lookupSource f "NWS" = some t ∧ |t - consensusOf f| < 1) ∨
      (∃ t, lookupSource f "MSN" = some t ∧ |t - consensusOf f| < 1) := by
  rw [priorityAgreement, Bool.or_eq_true]
  constructor
  · rintro (h | h)
    · left
      cases hl : lookupSource f "NWS" with
      | none => rw [hl] at h; simp at h
      | some t => rw [hl] at h; exact ⟨t, rfl, of_decide_eq_true h⟩
    · right
      cases hl : lookupSource f "MSN" with
      | none => rw [hl] at h; simp at h
      | some t => rw [hl] at h; exact ⟨t, rfl, of_decide_eq_true h⟩
  · rintro (⟨t, ht, hlt⟩ | ⟨t, ht, hlt⟩)
    · left; rw [ht]; exact decide_eq_true hlt
    · right; rw [ht]; exact decide_eq_true hlt

/-- Counterexample to C7: on `{NWS: 58, OpenMeteo: 57}` the code's
confidence is 0.85 − √(25/98)/3 (deviations measured about the *weighted*
consensus 403/7), while the claim's formula with the population standard
deviation of the raw temperatures (σ = 1/2 about the mean 57.5) gives
0.85 − 1/6; the two differ. -/
theorem confidence_not_population_std :
    confidenceOf exTwo ≠
      max 0 (((baseConfidence exTwo : ℚ) : ℝ) -
        min (Real.sqrt ((popVariance (exTwo.map (·.2)) : ℚ) : ℝ) / 3)
          ((mkRat 3 10 : ℚ) : ℝ)) := by
  have hbase : baseConfidence exTwo = mkRat 17 20 := by
    rw [baseConfidence, if_pos priorityAgreement_exTwo]
  have c1 : ((mkRat 25 98 : ℚ) : ℝ) = 25/98 := by norm_num [mkRat, Rat.normalize]
  have c2 : ((mkRat 1 4 : ℚ) : ℝ) = 1/4 := by norm_num [mkRat, Rat.normalize]
  have c3 : ((mkRat 17 20 : ℚ) : ℝ) = 17/20 := by norm_num [mkRat, Rat.normalize]
  have c4 : ((mkRat 3 10 : ℚ) : ℝ) = 3/10 := by norm_num [mkRat, Rat.normalize]
  rw [confidenceOf, if_pos (by decide : 1 < exTwo.length), confFromStd,
    varianceOf_exTwo, hbase, popVariance_exTwo, c1, c2, c3, c4]
  have hs4 : Real.sqrt (1/4 : ℝ) = 1/2 := by
    rw [show (1/4 : ℝ) = (1/2)^2 by norm_num, Real.sqrt_sq (by norm_num)]
  have hsb : Real.sqrt (25/98 : ℝ) ≤ 9/10 := by
    have h1 : Real.sqrt (25/98 : ℝ) ≤ Real.sqrt ((9/10 : ℝ)^2) :=
      Real.sqrt_le_sqrt (by norm_num)
    rwa [Real.sqrt_sq (by norm_num)] at h1
  have hs0 : 0 ≤ Real.sqrt (25/98 : ℝ) := Real.sqrt_nonneg _
  rw [hs4]
  have hmin1 : min (Real.sqrt (25/98 : ℝ) / 3) (3/10 : ℝ) =
      Real.sqrt (25/98 : ℝ) / 3 := min_eq_left (by linarith)
  have hmin2 : min ((1/2 : ℝ) / 3) (3/10 : ℝ) = 1/6 := by
    rw [min_eq_left (by norm_num)]
    norm_num
  have hmax1 : max 0 ((17/20 : ℝ) - Real.sqrt (25/98 : ℝ) / 3) =
      (17/20 : ℝ) - Real.sqrt (25/98 : ℝ) / 3 := max_eq_right (by linarith)
  have hmax2 : max 0 ((17/20 : ℝ) - 1/6) = (17/20 : ℝ) - 1/6 :=
    max_eq_right (by norm_num)
  rw [hmin1, hmax1, hmin2, hmax2]
  intro heq
  have hsqrt : Real.sqrt (25/98 : ℝ) = 1/2 := by linarith
  have hsq := congrArg (· ^ 2) hsqrt
  simp only [Real.sq_sqrt (by norm_num : (0:ℝ) ≤ 25/98)] at hsq
  norm_num at hsq

/-- C7 (amended): with at least 2 samples the confidence equals
`max(0, base − min(σ/3, 0.30))`, where σ is the square root of the mean
squared deviation of the raw temperatures about the *weighted* consensus
(the population standard deviation only when all weights agree), and the
base is 0.85 exactly when NWS or MSN is present within strictly 1.0° of the
consensus, else 0.70; the confidence is never negative and, holding the
base fixed, is monotonically non-increasing in σ. -/
theorem confidence_formula_monotone :
    (∀ f : List (String × ℚ), 2 ≤ f.length →
        confidenceOf f =
          max 0 (((baseConfidence f : ℚ) : ℝ) -
            min (Real.sqrt ((varianceOf f : ℚ) : ℝ) / 3) ((mkRat 3 10 : ℚ) : ℝ)) ∧
        0 ≤ confidenceOf f) ∧
    (∀ f : List (String × ℚ), baseConfidence f = mkRat 17 20 ∨
        baseConfidence f = mkRat 7 10) ∧
    (∀ f : List (String × ℚ), baseConfidence f = mkRat 17 20 ↔
        (∃ t, lookupSource f "NWS" = some t ∧ |t - consensusOf f| < 1) ∨
        (∃ t, lookupSource f "MSN" = some t ∧ |t - consensusOf f| < 1)) ∧
    (∀ b s1 s2 : ℝ, s1 ≤ s2 → confFromStd b s2 ≤ confFromStd b s1) := by
  refine ⟨?_, ?_, ?_, ?_⟩
  · intro f h2
    have hlen : 1 < f.length := by omega
    rw [confidenceOf, if_pos hlen, confFromStd]
    exact ⟨rfl, le_max_left _ _⟩
  · intro f
    rw [baseConfidence]
    by_cases hp : priorityAgreement f = true
    · left; rw [if_pos hp]
    · right; rw [if_neg hp]
  · intro f
    rw [← priorityAgreement_iff, baseConfidence]
    by_cases hp : priorityAgreement f = true
    · rw [if_pos hp]
      simp [hp]
    · rw [if_neg hp]
      constructor
      · intro h
        exact absurd h (by decide)
      · intro h
        exact absurd h hp
  · intro b s1 s2 h
    rw [confFromStd, confFromStd]
    refine max_le_max (le_refl 0) ?_
    refine sub_le_sub_left ?_ b
    exact min_le_min (by linarith) (le_refl _)

/-- Witness for `confidence_formula_monotone`: the two-source example has
non-negative confidence, and the penalty function is reflexively
monotone at σ = 0. -/
theorem confidence_formula_monotone_witness :
    (0 : ℝ) ≤ confidenceOf exTwo ∧ confFromStd 1 0 ≤ confFromStd 1 0 :=
  ⟨(confidence_formula_monotone.1 exTwo (by decide)).2,
    confidence_formula_monotone.2.2.2 1 0 0 (le_refl 0)⟩

/-! ### Claim C8 -/

/-- Counterexample to C8: with exactly one sample the confidence is not a
source-independent constant in the 0.60–0.70 band: a lone NWS sample gives
0.68, but a lone OpenMeteo sample gives 0.56, which also lies below 0.60. -/
theorem single_sample_confidence_source_dependent :
    (get_weighted_consensus [("OpenMeteo", (57 : ℚ))]).2 = (14/25 : ℝ) ∧
    (get_weighted_consensus [("NWS", (57 : ℚ))]).2 = (17/25 : ℝ) ∧
    (14/25 : ℝ) ≠ (17/25 : ℝ) ∧
    (14/25 : ℝ) < (3/5 : ℝ) := by
  refine ⟨conf_single_other "OpenMeteo" 57 (by decide) (by decide),
    conf_single_priority "NWS" 57 (Or.inl rfl), by norm_num, by norm_num⟩

/-- C8 (amended): the estimator is a total function that never throws; an
empty mapping returns `(None, 0.0)`; a single sample `(s, t)` returns
consensus exactly `t` with confidence `0.8 · base`: 0.68 when `s` is a
priority source (NWS or MSN) and 0.56 — below the claimed 0.60–0.70 band —
for every other source. -/
theorem degraded_inputs_confidence :
    get_weighted_consensus ([] : List (String × ℚ)) = (none, 0) ∧
    (∀ (s : String) (t : ℚ), (get_weighted_consensus [(s, t)]).1 = some t) ∧
    (∀ t : ℚ, (get_weighted_consensus [("NWS", t)]).2 = (17/25 : ℝ)) ∧
    (∀ t : ℚ, (get_weighted_consensus [("MSN", t)]).2 = (17/25 : ℝ)) ∧
    (∀ (s : String) (t : ℚ), s ≠ "NWS" → s ≠ "MSN" →
        (get_weighted_consensus [(s, t)]).2 = (14/25 : ℝ)) := by
  refine ⟨by simp [get_weighted_consensus], ?_, ?_, ?_, ?_⟩
  · intro s t
    simp [get_weighted_consensus, consensusOf_single]
  · intro t
    exact conf_single_priority "NWS" t (Or.inl rfl)
  · intro t
    exact conf_single_priority "MSN" t (Or.inr rfl)
  · intro s t h1 h2
    exact conf_single_other s t h1 h2

/-- Witness for `degraded_inputs_confidence` at a lone Foreca sample. -/
theorem degraded_inputs_confidence_witness :
    (get_weighted_consensus [("Foreca", (42 : ℚ))]).2 = (14/25 : ℝ) :=
  degraded_inputs_confidence.2.2.2.2 "Foreca" 42 (by decide) (by decide)
